import Mathlib

/-!
Shallow embedding of the message timeline engine of runbot-desktop
(src/src/components/ChatList.vue, with the push-ingestion step of the main
view and the thin storage wrapper), together with proofs about the claims
of the specification.

Conventions of the embedding:
- JavaScript numbers that hold ids and second-precision timestamps are
  modelled as Int; optional fields are Option; JS string unions such as
  post_type are modelled as String so that the source's string comparisons
  carry over verbatim.
- A field that may be undefined and is compared with === is an Option, and
  === between two possibly-undefined values is modelled by Option equality
  restricted the way the source uses it.
- JS truthiness tests (!x) on optional strings, numbers and booleans are
  modelled by explicit falsiness helpers (undefined, the empty string and 0
  are falsy).
- The reactive messages array of the component is a List; each handler of
  the source becomes a pure function from the old list (plus the event
  payload and, where the source awaits the backend, the backend result as a
  parameter) to the new list.
-/

/-- Message record shape: the fields of the OneBotMessage interface
(src/src/services/runbot.ts) that the timeline engine reads or writes. -/
structure OneBotMessage where
  localMessageId : Option String
  time : Int
  self_id : Option Int
  post_type : String
  message_type : Option String
  message_id : Option Int
  user_id : Option Int
  group_id : Option Int
  message : Option String
  raw_message : Option String
  sendStatus : Option String
  recalled : Bool
deriving DecidableEq, Inhabited, Repr

/-- JS truthiness for an optional string: undefined and the empty string are
falsy. -/
def strFalsy (o : Option String) : Bool :=
  match o with
  | none => true
  | some s => s = ""

/-- JS truthiness for an optional number: undefined and 0 are falsy. -/
def intFalsy (o : Option Int) : Bool :=
  match o with
  | none => true
  | some n => n = 0

/-- JS === between two possibly-absent numbers: true only when both are
present and equal (undefined === x and x === null are false). -/
def optIntEq (a b : Option Int) : Bool :=
  match a, b with
  | some x, some y => x = y
  | _, _ => false

/-- Predicate of the filter in filteredMessages (ChatList.vue lines 484-495)
and of the identical filter in loadChatMessages (lines 648-659): the record
must be a message or a sent message, and must match the active chat. -/
def visiblePred (chatType : Option String) (chatId : Int) (m : OneBotMessage) : Bool :=
  if m.post_type = "message" ∨ m.post_type = "message_sent" then
    if chatType = some "private" then
      m.message_type = some "private" ∧ m.user_id = some chatId
    else if chatType = some "group" then
      m.message_type = some "group" ∧ m.group_id = some chatId
    else false
  else false

/-- Insert a record into a list sorted ascending by time, before the first
record with a strictly later or equal time.  Together with sortByTime this
models the stable ascending sort by the comparator (a, b) => a.time - b.time
in filteredMessages (line 496). -/
def insertByTime (m : OneBotMessage) : List OneBotMessage → List OneBotMessage
  | [] => [m]
  | x :: xs => if m.time ≤ x.time then m :: x :: xs else x :: insertByTime m xs

/-- Stable ascending sort by timestamp, modelling Array.prototype.sort with
the comparator (a, b) => a.time - b.time. -/
def sortByTime : List OneBotMessage → List OneBotMessage
  | [] => []
  | x :: xs => insertByTime x (sortByTime xs)

/-- filteredMessages (ChatList.vue lines 481-497): empty when no chat is
active (chatId falsy or chatType falsy), otherwise the records of the active
chat sorted ascending by time. -/
def filteredMessages (chatType : Option String) (chatId : Option Int)
    (msgs : List OneBotMessage) : List OneBotMessage :=
  if intFalsy chatId ∨ strFalsy chatType then []
  else sortByTime (msgs.filter (visiblePred chatType (chatId.getD 0)))

/-- TIME_GROUP_THRESHOLD (line 508): 5 minutes in seconds. -/
def TIME_GROUP_THRESHOLD : Int := 5 * 60

/-- getSenderId (lines 511-516): sent messages collapse to the sender
"self", received ones to a string derived from user_id, with falsy user_id
replaced by "unknown". -/
def getSenderId (m : OneBotMessage) : String :=
  if m.post_type = "message_sent" then "self"
  else
    match m.user_id with
    | some u => if u = 0 then "user_unknown" else "user_" ++ toString u
    | none => "user_unknown"

/-- userId field of a group entry (line 546): null for sent messages,
otherwise user_id with falsy user_id collapsed to null. -/
def groupUserId (m : OneBotMessage) : Option Int :=
  if m.post_type = "message_sent" then none
  else
    match m.user_id with
    | some u => if u = 0 then none else some u
    | none => none

/-- isSameTimeGroup (lines 519-521): two timestamps belong to the same time
bucket when they are at most TIME_GROUP_THRESHOLD seconds apart. -/
def isSameTimeGroup (t1 t2 : Int) : Bool :=
  (t1 - t2).natAbs ≤ TIME_GROUP_THRESHOLD.natAbs

/-- The open (not yet emitted) sender group of the grouping walk
(currentSenderGroup, line 540).  The senderName field of the source is an
external name lookup excluded from the engine and is omitted. -/
structure OpenGroup where
  senderId : String
  userId : Option Int
  messages : List OneBotMessage
deriving DecidableEq, Inhabited, Repr

/-- An emitted cluster (interface GroupedMessage, lines 524-532), without
the external senderName lookup. -/
structure GroupedMessage where
  time : Int
  senderId : String
  userId : Option Int
  messages : List OneBotMessage
  showSender : Bool
  showTime : Bool
deriving DecidableEq, Inhabited, Repr

/-- State of the grouping walk: the emitted clusters and the open bucket
anchor paired with the open sender group.  In the source currentTimeGroup
and currentSenderGroup are null together exactly before the first record,
so they are paired in one Option. -/
structure GroupState where
  groups : List GroupedMessage
  cur : Option (Int × OpenGroup)
deriving DecidableEq, Inhabited, Repr

/-- needNewTimeGroup (line 550): the record opens a new time bucket when
there is no open bucket yet or its time falls outside the open bucket. -/
def needNewTimeGroup (st : GroupState) (m : OneBotMessage) : Bool :=
  match st.cur with
  | none => true
  | some (anchor, _) => !(isSameTimeGroup m.time anchor)

/-- needNewSenderGroup (lines 553-557): a new cluster starts on a new
bucket, a sender change, or when the open cluster holds 10 records. -/
def needNewSenderGroup (st : GroupState) (m : OneBotMessage) : Bool :=
  needNewTimeGroup st m ||
    match st.cur with
    | none => true
    | some (_, cg) => cg.senderId ≠ getSenderId m || cg.messages.length ≥ 10

/-- One iteration of the grouping loop (lines 542-608).  On a new bucket the
open cluster is flushed with showTime = true (lines 559-580); on a new
cluster within the bucket it is flushed with showTime = false (lines
581-601); otherwise the record joins the open cluster (lines 602-607). -/
def groupStep (st : GroupState) (m : OneBotMessage) : GroupState :=
  if needNewTimeGroup st m then
    match st.cur with
    | some (anchor, cg) =>
        { groups := st.groups ++ [⟨anchor, cg.senderId, cg.userId, cg.messages, true, true⟩],
          cur := some (m.time, ⟨getSenderId m, groupUserId m, [m]⟩) }
    | none =>
        { groups := st.groups,
          cur := some (m.time, ⟨getSenderId m, groupUserId m, [m]⟩) }
  else if needNewSenderGroup st m then
    match st.cur with
    | some (anchor, cg) =>
        { groups := st.groups ++ [⟨anchor, cg.senderId, cg.userId, cg.messages, true, false⟩],
          cur := some (anchor, ⟨getSenderId m, groupUserId m, [m]⟩) }
    | none => st
  else
    match st.cur with
    | some (anchor, cg) =>
        { groups := st.groups,
          cur := some (anchor, { cg with messages := cg.messages ++ [m] }) }
    | none => st

/-- The grouping walk over the whole record list. -/
def groupRun (st : GroupState) : List OneBotMessage → GroupState
  | [] => st
  | m :: rest => groupRun (groupStep st m) rest

/-- Emission of the last open cluster after the walk (lines 610-622): its
showTime compares its bucket anchor with the previously emitted cluster's
anchor, and is true when it is the only cluster. -/
def groupFinish (st : GroupState) : List GroupedMessage :=
  match st.cur with
  | none => st.groups
  | some (anchor, cg) =>
      let showT :=
        match st.groups.getLast? with
        | none => true
        | some lg => !(isSameTimeGroup anchor lg.time)
      st.groups ++ [⟨anchor, cg.senderId, cg.userId, cg.messages, true, showT⟩]

/-- groupedMessages (lines 534-625) as a function of the (already filtered
and sorted) visible records. -/
def groupedMessages (l : List OneBotMessage) : List GroupedMessage :=
  groupFinish (groupRun ⟨[], none⟩ l)

/-- The state of the grouping walk after the first n records. -/
def stateAfter (l : List OneBotMessage) (n : Nat) : GroupState :=
  groupRun ⟨[], none⟩ (l.take n)

/-- Whether the record at position i of the grouper input opens a new time
bucket (the needNewTimeGroup test of the iteration that consumes it). -/
def bucketStartAt (l : List OneBotMessage) (i : Nat) : Bool :=
  needNewTimeGroup (stateAfter l i) (l.getD i default)

/-- Whether the record at position i of the grouper input starts a new
cluster (the needNewSenderGroup test of the iteration that consumes it). -/
def clusterStartAt (l : List OneBotMessage) (i : Nat) : Bool :=
  needNewSenderGroup (stateAfter l i) (l.getD i default)

/-- isCurrentChat of addMessage (ChatList.vue lines 1527-1531).  The source
computes the same disjunction for received and sent messages; both branches
are the one test below. -/
def isCurrentChat (chatType : Option String) (chatId : Option Int)
    (m : OneBotMessage) : Bool :=
  (chatType = some "private" ∧ m.message_type = some "private" ∧ optIntEq m.user_id chatId) ∨
  (chatType = some "group" ∧ m.message_type = some "group" ∧ optIntEq m.group_id chatId)

/-- Duplicate test of addMessage (lines 1540-1543): some existing record has
the same localMessageId, which moreover is not undefined. -/
def dupPred (lid : Option String) (ex : OneBotMessage) : Bool :=
  ex.localMessageId = lid ∧ ex.localMessageId ≠ none

/-- addMessage (ChatList.vue lines 1521-1560): admit an incoming record into
the record set.  Records of other chats or of other post types are dropped;
a record with a falsy localMessageId receives the freshly generated id
genId; a record whose localMessageId already exists in the set is rejected
as a duplicate; otherwise it is appended. -/
def addMessage (genId : String) (chatType : Option String) (chatId : Option Int)
    (msgs : List OneBotMessage) (msg : OneBotMessage) : List OneBotMessage :=
  if isCurrentChat chatType chatId msg ∧
      (msg.post_type = "message" ∨ msg.post_type = "message_sent") then
    let m1 := if strFalsy msg.localMessageId
      then { msg with localMessageId := some genId } else msg
    if msgs.any (dupPred m1.localMessageId) then msgs
    else msgs ++ [m1]
  else msgs

/-- Assigning a localMessageId to every incoming push event before saving
and routing it (MainView, lines 516-524 of the handler): a falsy
localMessageId is replaced by a freshly generated UUID. -/
def mainIngest (genId : String) (msg : OneBotMessage) : OneBotMessage :=
  if strFalsy msg.localMessageId then { msg with localMessageId := some genId } else msg

/-- loadChatMessages (ChatList.vue lines 628-671): when a chat and the self
id are active, replace the record set by the storage rows that match the
chat, mapped unchanged; otherwise keep the record set.  rows stands for the
list the storage call getMessages returns. -/
def loadChatMessages (chatType : Option String) (chatId : Option Int)
    (selfId : Option Int) (msgs rows : List OneBotMessage) : List OneBotMessage :=
  if intFalsy chatId ∨ strFalsy chatType ∨ intFalsy selfId then msgs
  else rows.filter (visiblePred chatType (chatId.getD 0))

/-- The optimistic local record synthesized by sendMessage (ChatList.vue
lines 1180-1203): post_type message_sent, sendStatus sending, the freshly
generated uuid as localMessageId, no message_id, and the chat counterpart
as user_id for private chats (the self id for group chats). -/
def mkOptimisticMessage (uuid : String) (now : Int) (selfId : Option Int)
    (chatType : Option String) (chatId : Option Int) (text : String) : OneBotMessage :=
  { localMessageId := some uuid
    time := now
    self_id := selfId
    post_type := "message_sent"
    message_type := chatType
    message_id := none
    user_id := if chatType = some "private" then chatId else selfId
    group_id := if chatType = some "group" then chatId else none
    message := some text
    raw_message := some text
    sendStatus := some "sending"
    recalled := false }

/-- Test used by the mutation listeners to find a record by its local id
(msg.localMessageId === local_message_id, lines 1241-1243, 1578, 1590). -/
def matchesLocalId (lid : String) (m : OneBotMessage) : Bool :=
  m.localMessageId = some lid

/-- Common shape of the four mutation listeners: find the first record
satisfying p (the source uses findIndex or find) and replace it by f of
itself, leaving every other record untouched. -/
def patchFirst (p : OneBotMessage → Bool) (f : OneBotMessage → OneBotMessage) :
    List OneBotMessage → List OneBotMessage
  | [] => []
  | m :: rest => if p m then f m :: rest else m :: patchFirst p f rest

/-- The message-sent listener (ChatList.vue lines 1574-1583): find the first
record with the given local id and set sendStatus to sent and message_id to
the acknowledged gateway id.  No-op when no record matches. -/
def applyAck (msgs : List OneBotMessage) (lid : String) (mid : Int) : List OneBotMessage :=
  patchFirst (matchesLocalId lid)
    (fun m => { m with sendStatus := some "sent", message_id := some mid }) msgs

/-- The send-failure path of sendMessage (lines 1241-1246): find the first
record with the given local id and set sendStatus to failed. -/
def applyFailure (msgs : List OneBotMessage) (lid : String) : List OneBotMessage :=
  patchFirst (matchesLocalId lid) (fun m => { m with sendStatus := some "failed" }) msgs

/-- The message-updated listener (lines 1586-1595): find the first record
with the given local id and replace its message and raw_message content. -/
def applyUpdate (msgs : List OneBotMessage) (lid : String) (content rawContent : String) :
    List OneBotMessage :=
  patchFirst (matchesLocalId lid)
    (fun m => { m with message := some content, raw_message := some rawContent }) msgs

/-- Test used by the recall handler to find a record by its gateway id
(m.message_id === messageId, line 1712). -/
def matchesMsgId (mid : Int) (m : OneBotMessage) : Bool :=
  m.message_id = some mid

/-- In-memory branch of handleMessageRecalled (lines 1712-1717): mark the
first record with the given gateway id as recalled. -/
def patchRecallFirst (msgs : List OneBotMessage) (mid : Int) : List OneBotMessage :=
  patchFirst (matchesMsgId mid) (fun m => { m with recalled := true }) msgs

/-- handleMessageRecalled (ChatList.vue lines 1702-1723): when some record
carries the gateway id it is patched in place, otherwise the record set is
reloaded from storage.  reload stands for the list the fallback
loadChatMessages call produces. -/
def handleMessageRecalled (msgs : List OneBotMessage) (mid : Int)
    (reload : List OneBotMessage) : List OneBotMessage :=
  if msgs.any (matchesMsgId mid) then patchRecallFirst msgs mid else reload

/-- The watch on [chatId, chatType] (ChatList.vue lines 1509-1518): when a
chat is selected the record set is replaced by a fresh storage load, and
cleared otherwise.  rows stands for the storage rows of the new chat. -/
def onScopeChange (chatType : Option String) (chatId : Option Int) (selfId : Option Int)
    (msgs rows : List OneBotMessage) : List OneBotMessage :=
  if ¬ intFalsy chatId ∧ ¬ strFalsy chatType then
    loadChatMessages chatType chatId selfId msgs rows
  else []

/-- Guard of the recall context menu (showMessageContextMenu, lines
1619-1643): only a sent, not yet recalled record at most 120 seconds old
may be recalled. -/
def canRecall (now : Int) (m : OneBotMessage) : Bool :=
  m.post_type = "message_sent" ∧ !m.recalled ∧ now - m.time ≤ 120

/-- Context-menu state of the component (showContextMenu and
contextMenuMessage refs, lines 475-478). -/
structure CtxMenuState where
  showContextMenu : Bool
  contextMenuMessage : Option OneBotMessage
deriving DecidableEq, Inhabited, Repr

/-- showMessageContextMenu (lines 1619-1671): return early without touching
any state unless the record is a sent message, not recalled, and at most
120 seconds old; otherwise open the menu on that record. -/
def showMessageContextMenu (now : Int) (st : CtxMenuState) (m : OneBotMessage) : CtxMenuState :=
  if m.post_type ≠ "message_sent" then st
  else if m.recalled then st
  else if now - m.time > 120 then st
  else { showContextMenu := true, contextMenuMessage := some m }

/-- recallMessage (lines 1680-1699): the gateway id handed to the
deleteMessage API call, none when nothing is issued (no menu target or a
falsy message_id). -/
def recallMessage (st : CtxMenuState) : Option Int :=
  match st.contextMenuMessage with
  | none => none
  | some m => if intFalsy m.message_id then none else m.message_id

/-- Concrete input for the grouper counterexamples: a received message of
user 1 at time 0, a received message of user 2 at time 100 (same bucket,
different sender), and a received message of user 2 at time 1000 (new
bucket). -/
def exMsg (uid : Int) (t : Int) : OneBotMessage :=
  { localMessageId := some ("m" ++ toString t)
    time := t
    self_id := some 9
    post_type := "message"
    message_type := some "private"
    message_id := none
    user_id := some uid
    group_id := none
    message := some "hi"
    raw_message := some "hi"
    sendStatus := none
    recalled := false }

/-- Three visible records: bucket one holds two clusters (user 1 then
user 2), bucket two holds one cluster. -/
def exList1 : List OneBotMessage := [exMsg 1 0, exMsg 2 100, exMsg 2 1000]

/-- Three same-sender records at times 0, 250 and 549: the gap between the
second and third is 299 seconds, yet 549 is outside the bucket anchored at
0. -/
def exList3 : List OneBotMessage := [exMsg 1 0, exMsg 1 250, exMsg 1 549]

/-- A record set seen from outside the grouping walk: the member records of
the emitted clusters followed by the records of the still-open cluster. -/
def emitted (st : GroupState) : List OneBotMessage :=
  st.groups.flatMap GroupedMessage.messages ++
    (match st.cur with
     | none => []
     | some (_, cg) => cg.messages)

/-- The immutable identity of a record (localMessageId, direction, scope and
timestamp): the fields no mutation listener ever rewrites. -/
def sameIdentity (a b : OneBotMessage) : Prop :=
  a.localMessageId = b.localMessageId ∧ a.time = b.time ∧ a.post_type = b.post_type ∧
    a.message_type = b.message_type ∧ a.user_id = b.user_id ∧ a.group_id = b.group_id

/-- Concrete optimistically sent record: pending private send to user 1 with
local id "abc". -/
def exSent : OneBotMessage :=
  { localMessageId := some "abc"
    time := 1000
    self_id := some 9
    post_type := "message_sent"
    message_type := some "private"
    message_id := none
    user_id := some 1
    group_id := none
    message := some "hello"
    raw_message := some "hello"
    sendStatus := some "sending"
    recalled := false }

/-- Concrete acknowledged sent record carrying gateway id 7, used by the
recall-guard witness. -/
def exSentAcked : OneBotMessage :=
  { exSent with sendStatus := some "sent", message_id := some 7 }

/-- Concrete storage row without a localMessageId: a persisted received
message of user 1 whose row lacks the local id column. -/
def exRowNoId : OneBotMessage :=
  { exMsg 1 0 with localMessageId := none }

theorem mem_insertByTime {a m : OneBotMessage} {l : List OneBotMessage} :
    a ∈ insertByTime m l ↔ a = m ∨ a ∈ l := by
  induction l with
  | nil => simp [insertByTime]
  | cons x xs ih =>
      unfold insertByTime
      by_cases hle : m.time ≤ x.time
      · rw [if_pos hle]
        simp
      · rw [if_neg hle]
        simp [ih]
        tauto

theorem pairwise_insertByTime {m : OneBotMessage} {l : List OneBotMessage}
    (h : l.Pairwise (fun a b => a.time ≤ b.time)) :
    (insertByTime m l).Pairwise (fun a b => a.time ≤ b.time) := by
  induction l with
  | nil => simp [insertByTime]
  | cons x xs ih =>
      rw [List.pairwise_cons] at h
      obtain ⟨hx, hxs⟩ := h
      unfold insertByTime
      by_cases hle : m.time ≤ x.time
      · rw [if_pos hle]
        refine List.pairwise_cons.mpr ⟨?_, List.pairwise_cons.mpr ⟨hx, hxs⟩⟩
        intro b hb
        rcases List.mem_cons.mp hb with rfl | hb
        · exact hle
        · exact le_trans hle (hx b hb)
      · rw [if_neg hle]
        refine List.pairwise_cons.mpr ⟨?_, ih hxs⟩
        intro b hb
        rcases mem_insertByTime.mp hb with rfl | hb
        · exact le_of_lt (lt_of_not_le hle)
        · exact hx b hb

theorem sortByTime_sorted (l : List OneBotMessage) :
    (sortByTime l).Pairwise (fun a b => a.time ≤ b.time) := by
  induction l with
  | nil => simp [sortByTime]
  | cons x xs ih => exact pairwise_insertByTime ih

theorem mem_sortByTime {a : OneBotMessage} {l : List OneBotMessage} :
    a ∈ sortByTime l ↔ a ∈ l := by
  induction l with
  | nil => simp [sortByTime]
  | cons x xs ih => simp [sortByTime, mem_insertByTime, ih]

theorem emitted_groupStep (st : GroupState) (m : OneBotMessage) :
    emitted (groupStep st m) = emitted st ++ [m] := by
  obtain ⟨gs, cur⟩ := st
  cases cur with
  | none => simp [emitted, groupStep, needNewTimeGroup]
  | some ac =>
      obtain ⟨anchor, cg⟩ := ac
      by_cases h1 : needNewTimeGroup ⟨gs, some (anchor, cg)⟩ m = true
      · simp [emitted, groupStep, h1, List.flatMap_append]
      · by_cases h2 : needNewSenderGroup ⟨gs, some (anchor, cg)⟩ m = true
        · simp [emitted, groupStep, h1, h2, List.flatMap_append]
        · simp [emitted, groupStep, h1, h2]

theorem emitted_groupRun (l : List OneBotMessage) : ∀ st : GroupState,
    emitted (groupRun st l) = emitted st ++ l := by
  induction l with
  | nil => intro st; simp [groupRun]
  | cons m rest ih =>
      intro st
      show emitted (groupRun (groupStep st m) rest) = _
      rw [ih, emitted_groupStep, List.append_assoc, List.singleton_append]

theorem flatMap_groupFinish (st : GroupState) :
    (groupFinish st).flatMap GroupedMessage.messages = emitted st := by
  obtain ⟨gs, cur⟩ := st
  cases cur with
  | none => simp [groupFinish, emitted]
  | some ac =>
      obtain ⟨anchor, cg⟩ := ac
      simp [groupFinish, emitted, List.flatMap_append]

theorem flatten_groupedMessages (l : List OneBotMessage) :
    (groupedMessages l).flatMap GroupedMessage.messages = l := by
  unfold groupedMessages
  rw [flatMap_groupFinish, emitted_groupRun]
  simp [emitted]

/-- C2: for every record store and active scope, concatenating the member
records of all clusters emitted by the grouper over the visible records, in
cluster order and then intra-cluster order, yields a sequence sorted
non-decreasing by timestamp, whatever the arrival order in the store. -/
theorem grouper_ordering_invariant (chatType : Option String) (chatId : Option Int)
    (msgs : List OneBotMessage) :
    ((groupedMessages (filteredMessages chatType chatId msgs)).flatMap
        GroupedMessage.messages).Pairwise (fun a b => a.time ≤ b.time) := by
  rw [flatten_groupedMessages]
  unfold filteredMessages
  split
  · simp
  · exact sortByTime_sorted _

theorem applyAck_cons (m : OneBotMessage) (rest : List OneBotMessage) (lid : String) (mid : Int) :
    applyAck (m :: rest) lid mid =
      if matchesLocalId lid m then
        { m with sendStatus := some "sent", message_id := some mid } :: rest
      else m :: applyAck rest lid mid := rfl

/-- C4: admitting a record whose localMessageId already (uniquely) exists in
the record set is rejected: the set is unchanged, so no field of the
existing record is altered, a second admission is likewise a no-op
whatever fresh id the second call would generate, and exactly one record
with that local id remains. -/
theorem admit_dedup_idempotent (genId genId2 : String) (chatType : Option String)
    (chatId : Option Int) (msgs : List OneBotMessage) (msg : OneBotMessage) (lid : String)
    (hlid : msg.localMessageId = some lid) (hne : lid ≠ "")
    (hexists : msgs.countP (matchesLocalId lid) = 1) :
    addMessage genId chatType chatId msgs msg = msgs ∧
      addMessage genId2 chatType chatId (addMessage genId chatType chatId msgs msg) msg =
        addMessage genId chatType chatId msgs msg ∧
      (addMessage genId chatType chatId msgs msg).countP (matchesLocalId lid) = 1 := by
  have hdup : msgs.any (dupPred (some lid)) = true := by
    have hpos : 0 < msgs.countP (matchesLocalId lid) := by omega
    rw [List.countP_pos_iff] at hpos
    obtain ⟨ex, hmem, hex⟩ := hpos
    rw [List.any_eq_true]
    refine ⟨ex, hmem, ?_⟩
    simp only [matchesLocalId, decide_eq_true_eq] at hex
    simp [dupPred, hex]
  have key : ∀ g : String, addMessage g chatType chatId msgs msg = msgs := by
    intro g
    unfold addMessage
    split
    · have hfalsy : strFalsy (some lid) = false := by
        simp [strFalsy, hne]
      simp only [hlid, hfalsy, Bool.false_eq_true, if_false, hdup, if_true]
    · rfl
  exact ⟨key genId, by rw [key genId]; exact key genId2, by rw [key genId]; exact hexists⟩

/-- Witness for C4 at a concrete one-record set already holding the local id
"abc". -/
theorem admit_dedup_idempotent_witness :
    (exSent.localMessageId = some "abc" ∧ ("abc" : String) ≠ "" ∧
        [exSent].countP (matchesLocalId "abc") = 1) ∧
      (addMessage "g1" (some "private") (some 1) [exSent] exSent = [exSent] ∧
        addMessage "g2" (some "private") (some 1)
            (addMessage "g1" (some "private") (some 1) [exSent] exSent) exSent =
          addMessage "g1" (some "private") (some 1) [exSent] exSent ∧
        (addMessage "g1" (some "private") (some 1) [exSent] exSent).countP
            (matchesLocalId "abc") = 1) :=
  ⟨⟨by decide, by decide, by decide⟩,
    admit_dedup_idempotent "g1" "g2" (some "private") (some 1) [exSent] exSent "abc"
      (by decide) (by decide) (by decide)⟩

/-- C5: on a record set holding exactly one record with the given local id,
all of whose matches are pending, the acknowledgment listener marks that
record sent with the acknowledged gateway id, and exactly one record with
that local id remains. -/
theorem applyAck_convergence (lid : String) (mid : Int) : ∀ msgs : List OneBotMessage,
    msgs.countP (matchesLocalId lid) = 1 →
    (∀ m ∈ msgs, matchesLocalId lid m = true → m.sendStatus = some "sending") →
    (applyAck msgs lid mid).countP (matchesLocalId lid) = 1 ∧
      ∀ m ∈ applyAck msgs lid mid, matchesLocalId lid m = true →
        m.sendStatus = some "sent" ∧ m.message_id = some mid := by
  intro msgs
  induction msgs with
  | nil => intro hcount _; simp at hcount
  | cons m rest ih =>
      intro hcount hpending
      by_cases hm : matchesLocalId lid m = true
      · have hrest : rest.countP (matchesLocalId lid) = 0 := by
          rw [List.countP_cons, if_pos hm] at hcount
          omega
        have hnone := List.countP_eq_zero.mp hrest
        rw [applyAck_cons, if_pos hm]
        constructor
        · rw [List.countP_cons, hrest]
          have : matchesLocalId lid { m with sendStatus := some "sent", message_id := some mid } =
              matchesLocalId lid m := rfl
          rw [this, if_pos hm]
        · intro x hx hmatch
          rcases List.mem_cons.mp hx with rfl | hx
          · exact ⟨rfl, rfl⟩
          · exact absurd hmatch (hnone x hx)
      · have hcount' : rest.countP (matchesLocalId lid) = 1 := by
          rw [List.countP_cons, if_neg hm] at hcount
          omega
        have hpend' : ∀ x ∈ rest, matchesLocalId lid x = true → x.sendStatus = some "sending" :=
          fun x hx => hpending x (List.mem_cons_of_mem m hx)
        obtain ⟨ih1, ih2⟩ := ih hcount' hpend'
        rw [applyAck_cons, if_neg hm]
        constructor
        · rw [List.countP_cons, ih1, if_neg hm]
        · intro x hx hmatch
          rcases List.mem_cons.mp hx with rfl | hx
          · exact absurd hmatch hm
          · exact ih2 x hx hmatch

/-- Witness for C5: acknowledging the pending optimistic record "abc" with
gateway id 42. -/
theorem applyAck_convergence_witness :
    ([exSent].countP (matchesLocalId "abc") = 1 ∧
        ∀ m ∈ [exSent], matchesLocalId "abc" m = true → m.sendStatus = some "sending") ∧
      ((applyAck [exSent] "abc" 42).countP (matchesLocalId "abc") = 1 ∧
        ∀ m ∈ applyAck [exSent] "abc" 42, matchesLocalId "abc" m = true →
          m.sendStatus = some "sent" ∧ m.message_id = some 42) :=
  ⟨⟨by decide, by decide⟩, applyAck_convergence "abc" 42 [exSent] (by decide) (by decide)⟩

/-- C6: with an active scope (a chat kind and a non-falsy chat id), a
message or sent-message record is visible exactly when its conversation
kind and counterpart id match the active scope, for sent and received
records alike. -/
theorem scope_filter_visibility (k : String) (cid : Int) (msgs : List OneBotMessage)
    (m : OneBotMessage) (hk : k = "private" ∨ k = "group") (hcid : cid ≠ 0)
    (hm : m.post_type = "message" ∨ m.post_type = "message_sent") :
    m ∈ filteredMessages (some k) (some cid) msgs ↔
      m ∈ msgs ∧
        ((k = "private" ∧ m.message_type = some "private" ∧ m.user_id = some cid) ∨
          (k = "group" ∧ m.message_type = some "group" ∧ m.group_id = some cid)) := by
  have hkne : k ≠ "" := by rcases hk with rfl | rfl <;> decide
  unfold filteredMessages
  rw [if_neg ?hguard]
  case hguard =>
    rintro (h | h)
    · simp [intFalsy] at h
      exact hcid h
    · simp [strFalsy] at h
      exact hkne h
  rw [mem_sortByTime, List.mem_filter]
  have hpred : (visiblePred (some k) cid m = true) ↔
      ((k = "private" ∧ m.message_type = some "private" ∧ m.user_id = some cid) ∨
        (k = "group" ∧ m.message_type = some "group" ∧ m.group_id = some cid)) := by
    rcases hk with rfl | rfl
    · simp [visiblePred, hm]
    · simp [visiblePred, hm]
  rw [Option.getD_some, hpred]

/-- Witness for C6 at the private scope of user 1 and a concrete received
record of that user. -/
theorem scope_filter_visibility_witness :
    ((("private" : String) = "private" ∨ ("private" : String) = "group") ∧ (1 : Int) ≠ 0 ∧
        ((exMsg 1 0).post_type = "message" ∨ (exMsg 1 0).post_type = "message_sent")) ∧
      (exMsg 1 0 ∈ filteredMessages (some "private") (some 1) [exMsg 1 0] ↔
        exMsg 1 0 ∈ [exMsg 1 0] ∧
          (("private" : String) = "private" ∧ (exMsg 1 0).message_type = some "private" ∧
              (exMsg 1 0).user_id = some 1 ∨
            ("private" : String) = "group" ∧ (exMsg 1 0).message_type = some "group" ∧
              (exMsg 1 0).group_id = some 1)) :=
  ⟨⟨Or.inl rfl, by decide, Or.inl rfl⟩,
    scope_filter_visibility "private" 1 [exMsg 1 0] (exMsg 1 0) (Or.inl rfl) (by decide)
      (Or.inl rfl)⟩

theorem sameIdentity_refl (a : OneBotMessage) : sameIdentity a a :=
  ⟨rfl, rfl, rfl, rfl, rfl, rfl⟩

theorem set_recalled_eq (m : OneBotMessage) (h : m.recalled = true) :
    { m with recalled := true } = m := by
  rw [← h]

theorem patchFirst_cons (p : OneBotMessage → Bool) (f : OneBotMessage → OneBotMessage)
    (m : OneBotMessage) (rest : List OneBotMessage) :
    patchFirst p f (m :: rest) =
      if p m = true then f m :: rest else m :: patchFirst p f rest := rfl

theorem patchFirst_length (p : OneBotMessage → Bool) (f : OneBotMessage → OneBotMessage) :
    ∀ l : List OneBotMessage, (patchFirst p f l).length = l.length := by
  intro l
  induction l with
  | nil => rfl
  | cons m rest ih =>
      rw [patchFirst_cons]
      by_cases hp : p m = true
      · rw [if_pos hp]
        rfl
      · rw [if_neg hp]
        simp [ih]

theorem patchFirst_any (p : OneBotMessage → Bool) (f : OneBotMessage → OneBotMessage)
    (hpf : ∀ m, p (f m) = p m) :
    ∀ l : List OneBotMessage, (patchFirst p f l).any p = l.any p := by
  intro l
  induction l with
  | nil => rfl
  | cons m rest ih =>
      rw [patchFirst_cons]
      by_cases hp : p m = true
      · rw [if_pos hp]
        simp [hpf, hp]
      · rw [if_neg hp]
        simp only [List.any_cons, ih]

theorem patchFirst_of_marked (p : OneBotMessage → Bool) (f : OneBotMessage → OneBotMessage) :
    ∀ l : List OneBotMessage, (∀ m ∈ l, p m = true → f m = m) → patchFirst p f l = l := by
  intro l
  induction l with
  | nil => intro _; rfl
  | cons m rest ih =>
      intro h
      rw [patchFirst_cons]
      by_cases hp : p m = true
      · rw [if_pos hp, h m (List.mem_cons_self m rest) hp]
      · rw [if_neg hp, ih (fun x hx => h x (List.mem_cons_of_mem m hx))]

theorem patchFirst_idem (p : OneBotMessage → Bool) (f : OneBotMessage → OneBotMessage)
    (hpf : ∀ m, p (f m) = p m) (hff : ∀ m, f (f m) = f m) :
    ∀ l : List OneBotMessage, patchFirst p f (patchFirst p f l) = patchFirst p f l := by
  intro l
  induction l with
  | nil => rfl
  | cons m rest ih =>
      rw [patchFirst_cons]
      by_cases hp : p m = true
      · rw [if_pos hp, patchFirst_cons, if_pos (by rw [hpf m]; exact hp), hff m]
      · rw [if_neg hp, patchFirst_cons, if_neg hp, ih]

theorem patchFirst_getD_recalled (p : OneBotMessage → Bool) (f : OneBotMessage → OneBotMessage)
    (hrec : ∀ m, m.recalled = true → (f m).recalled = true) :
    ∀ (l : List OneBotMessage) (i : Nat), (l.getD i default).recalled = true →
      ((patchFirst p f l).getD i default).recalled = true := by
  intro l
  induction l with
  | nil => intro i h; exact h
  | cons m rest ih =>
      intro i h
      rw [patchFirst_cons]
      by_cases hp : p m = true
      · rw [if_pos hp]
        cases i with
        | zero => rw [List.getD_cons_zero] at h ⊢; exact hrec m h
        | succ j => rw [List.getD_cons_succ] at h ⊢; exact h
      · rw [if_neg hp]
        cases i with
        | zero => rw [List.getD_cons_zero] at h ⊢; exact h
        | succ j => rw [List.getD_cons_succ] at h ⊢; exact ih j h

theorem patchFirst_getD_identity (p : OneBotMessage → Bool) (f : OneBotMessage → OneBotMessage)
    (hf : ∀ m, sameIdentity (f m) m) :
    ∀ (l : List OneBotMessage) (i : Nat),
      sameIdentity ((patchFirst p f l).getD i default) (l.getD i default) := by
  intro l
  induction l with
  | nil => intro i; exact sameIdentity_refl _
  | cons m rest ih =>
      intro i
      rw [patchFirst_cons]
      by_cases hp : p m = true
      · rw [if_pos hp]
        cases i with
        | zero => rw [List.getD_cons_zero, List.getD_cons_zero]; exact hf m
        | succ j => rw [List.getD_cons_succ, List.getD_cons_succ]; exact sameIdentity_refl _
      · rw [if_neg hp]
        cases i with
        | zero => rw [List.getD_cons_zero, List.getD_cons_zero]; exact sameIdentity_refl _
        | succ j => rw [List.getD_cons_succ, List.getD_cons_succ]; exact ih j

/-- C7: applying the recall handler twice with the same gateway id gives the
same record set as applying it once (the storage fallback rows already
carry recalled = true for that id, since the main view marks storage before
invoking the handler); and no mutation listener ever turns a record's
recalled flag from true back to false. -/
theorem recall_idempotent_monotone (msgs : List OneBotMessage) (mid : Int)
    (reload : List OneBotMessage)
    (hreload : ∀ m ∈ reload, matchesMsgId mid m = true → m.recalled = true) :
    handleMessageRecalled (handleMessageRecalled msgs mid reload) mid reload =
        handleMessageRecalled msgs mid reload ∧
      (∀ i : Nat, (msgs.getD i default).recalled = true →
        ((patchRecallFirst msgs mid).getD i default).recalled = true) ∧
      (∀ (lid : String) (mid2 : Int) (i : Nat), (msgs.getD i default).recalled = true →
        ((applyAck msgs lid mid2).getD i default).recalled = true) ∧
      (∀ (lid : String) (i : Nat), (msgs.getD i default).recalled = true →
        ((applyFailure msgs lid).getD i default).recalled = true) ∧
      (∀ (lid c rc : String) (i : Nat), (msgs.getD i default).recalled = true →
        ((applyUpdate msgs lid c rc).getD i default).recalled = true) ∧
      (∀ (genId : String) (ct : Option String) (cid : Option Int) (msg : OneBotMessage)
          (i : Nat), i < msgs.length →
        (addMessage genId ct cid msgs msg).getD i default = msgs.getD i default) := by
  refine ⟨?_, ?_, ?_, ?_, ?_, ?_⟩
  · by_cases han : msgs.any (matchesMsgId mid) = true
    · have h1 : handleMessageRecalled msgs mid reload = patchRecallFirst msgs mid := by
        unfold handleMessageRecalled
        rw [if_pos han]
      rw [h1]
      have hany2 : (patchRecallFirst msgs mid).any (matchesMsgId mid) = true := by
        unfold patchRecallFirst
        exact (patchFirst_any (matchesMsgId mid)
          (fun m => { m with recalled := true }) (fun m => rfl) msgs).trans han
      unfold handleMessageRecalled
      rw [if_pos hany2]
      unfold patchRecallFirst
      exact patchFirst_idem (matchesMsgId mid) (fun m => { m with recalled := true })
        (fun m => rfl) (fun m => rfl) msgs
    · have h1 : handleMessageRecalled msgs mid reload = reload := by
        unfold handleMessageRecalled
        rw [if_neg han]
      rw [h1]
      by_cases han2 : reload.any (matchesMsgId mid) = true
      · unfold handleMessageRecalled
        rw [if_pos han2]
        unfold patchRecallFirst
        exact patchFirst_of_marked (matchesMsgId mid) (fun m => { m with recalled := true })
          reload (fun m hm hp => set_recalled_eq m (hreload m hm hp))
      · unfold handleMessageRecalled
        rw [if_neg han2]
  · exact fun i h => patchFirst_getD_recalled (matchesMsgId mid)
      (fun m => { m with recalled := true }) (fun m _ => rfl) msgs i h
  · exact fun lid mid2 i h => patchFirst_getD_recalled (matchesLocalId lid)
      (fun m => { m with sendStatus := some "sent", message_id := some mid2 })
      (fun m hm => hm) msgs i h
  · exact fun lid i h => patchFirst_getD_recalled (matchesLocalId lid)
      (fun m => { m with sendStatus := some "failed" }) (fun m hm => hm) msgs i h
  · exact fun lid c rc i h => patchFirst_getD_recalled (matchesLocalId lid)
      (fun m => { m with message := some c, raw_message := some rc })
      (fun m hm => hm) msgs i h
  · intro genId ct cid msg i hi
    unfold addMessage
    split
    · split
      · dsimp only
        split
        · rfl
        · exact List.getD_append _ _ _ _ hi
      · dsimp only
        split
        · rfl
        · exact List.getD_append _ _ _ _ hi
    · rfl

/-- Witness for C7: recalling gateway id 7 twice on a one-record set holding
the acknowledged send with that id, with an empty storage fallback. -/
theorem recall_idempotent_monotone_witness :
    (∀ m ∈ ([] : List OneBotMessage), matchesMsgId 7 m = true → m.recalled = true) ∧
      handleMessageRecalled (handleMessageRecalled [exSentAcked] 7 []) 7 [] =
        handleMessageRecalled [exSentAcked] 7 [] :=
  ⟨by simp, (recall_idempotent_monotone [exSentAcked] 7 [] (by simp)).1⟩

/-- C8 counterexample: deselecting the chat (the else branch of the watch on
[chatId, chatType]) clears the record set, removing an admitted record from
the set rather than merely hiding it. -/
theorem scope_change_removes_records :
    onScopeChange none none (some 9) [exSent] [] = [] ∧ exSent ∈ [exSent] := by
  decide

/-- C8 amended: admission, acknowledgment, failure, content update and an
in-memory recall never remove a record from the set (admission leaves every
existing position untouched and can only append; the four patch listeners
keep the length and every record's identity fields); a scope change or a
recall whose gateway id is absent, however, replaces the whole set. -/
theorem record_set_preservation (msgs : List OneBotMessage) :
    (∀ (genId : String) (ct : Option String) (cid : Option Int) (msg : OneBotMessage)
        (i : Nat), i < msgs.length →
      (addMessage genId ct cid msgs msg).getD i default = msgs.getD i default) ∧
      (∀ (genId : String) (ct : Option String) (cid : Option Int) (msg : OneBotMessage),
        msgs.length ≤ (addMessage genId ct cid msgs msg).length) ∧
      (∀ (lid : String) (mid : Int), (applyAck msgs lid mid).length = msgs.length ∧
        ∀ i : Nat, sameIdentity ((applyAck msgs lid mid).getD i default)
          (msgs.getD i default)) ∧
      (∀ lid : String, (applyFailure msgs lid).length = msgs.length ∧
        ∀ i : Nat, sameIdentity ((applyFailure msgs lid).getD i default)
          (msgs.getD i default)) ∧
      (∀ lid c rc : String, (applyUpdate msgs lid c rc).length = msgs.length ∧
        ∀ i : Nat, sameIdentity ((applyUpdate msgs lid c rc).getD i default)
          (msgs.getD i default)) ∧
      (∀ (mid : Int) (reload : List OneBotMessage), msgs.any (matchesMsgId mid) = true →
        (handleMessageRecalled msgs mid reload).length = msgs.length ∧
        ∀ i : Nat, sameIdentity ((handleMessageRecalled msgs mid reload).getD i default)
          (msgs.getD i default)) := by
  refine ⟨?_, ?_, ?_, ?_, ?_, ?_⟩
  · intro genId ct cid msg i hi
    unfold addMessage
    split
    · split
      · dsimp only
        split
        · rfl
        · exact List.getD_append _ _ _ _ hi
      · dsimp only
        split
        · rfl
        · exact List.getD_append _ _ _ _ hi
    · rfl
  · intro genId ct cid msg
    unfold addMessage
    split
    · split
      · dsimp only
        split
        · exact le_refl _
        · simp
      · dsimp only
        split
        · exact le_refl _
        · simp
    · exact le_refl _
  · exact fun lid mid =>
      ⟨patchFirst_length _ _ msgs,
        fun i => patchFirst_getD_identity (matchesLocalId lid)
          (fun m => { m with sendStatus := some "sent", message_id := some mid })
          (fun m => ⟨rfl, rfl, rfl, rfl, rfl, rfl⟩) msgs i⟩
  · exact fun lid =>
      ⟨patchFirst_length _ _ msgs,
        fun i => patchFirst_getD_identity (matchesLocalId lid)
          (fun m => { m with sendStatus := some "failed" })
          (fun m => ⟨rfl, rfl, rfl, rfl, rfl, rfl⟩) msgs i⟩
  · exact fun lid c rc =>
      ⟨patchFirst_length _ _ msgs,
        fun i => patchFirst_getD_identity (matchesLocalId lid)
          (fun m => { m with message := some c, raw_message := some rc })
          (fun m => ⟨rfl, rfl, rfl, rfl, rfl, rfl⟩) msgs i⟩
  · intro mid reload han
    have h1 : handleMessageRecalled msgs mid reload = patchRecallFirst msgs mid := by
      unfold handleMessageRecalled
      rw [if_pos han]
    rw [h1]
    exact ⟨patchFirst_length _ _ msgs,
      fun i => patchFirst_getD_identity (matchesMsgId mid)
        (fun m => { m with recalled := true })
        (fun m => ⟨rfl, rfl, rfl, rfl, rfl, rfl⟩) msgs i⟩

/-- Witness for C8 at a concrete one-record set: an in-memory recall of
gateway id 7 keeps the set's length. -/
theorem record_set_preservation_witness :
    ([exSentAcked].any (matchesMsgId 7) = true) ∧
      (handleMessageRecalled [exSentAcked] 7 []).length = [exSentAcked].length :=
  ⟨by decide, ((record_set_preservation [exSentAcked]).2.2.2.2.2 7 [] (by decide)).1⟩

/-- C9 counterexample: loading a storage row that lacks a localMessageId
puts it into the record set unchanged; no local id is assigned on the load
path. -/
theorem load_admits_row_without_localId :
    loadChatMessages (some "private") (some 1) (some 9) [] [exRowNoId] = [exRowNoId] ∧
      exRowNoId.localMessageId = none := by
  decide

/-- C9 amended: the push-ingestion step of the main view and the live-push
admission both assign a fresh id to a record whose localMessageId is falsy,
and an optimistic send always carries the generated uuid; the storage-load
path, by contrast, maps rows into the set unchanged. -/
theorem ingestion_localId_assignment (genId : String) (hg : genId ≠ "") :
    (∀ msg : OneBotMessage, strFalsy ((mainIngest genId msg).localMessageId) = false) ∧
      (∀ (ct : Option String) (cid : Option Int) (msgs : List OneBotMessage)
          (msg m' : OneBotMessage), m' ∈ addMessage genId ct cid msgs msg →
        m' ∈ msgs ∨ strFalsy m'.localMessageId = false) ∧
      (∀ (uuid : String) (now : Int) (selfId : Option Int) (ct : Option String)
          (cid : Option Int) (text : String),
        (mkOptimisticMessage uuid now selfId ct cid text).localMessageId = some uuid ∧
          (mkOptimisticMessage uuid now selfId ct cid text).sendStatus = some "sending") ∧
      (∀ (ct : Option String) (cid selfId : Option Int) (msgs rows : List OneBotMessage)
          (m' : OneBotMessage), m' ∈ loadChatMessages ct cid selfId msgs rows →
        m' ∈ msgs ∨ m' ∈ rows) := by
  have hgen : strFalsy (some genId) = false := by
    simp [strFalsy, hg]
  refine ⟨?_, ?_, ?_, ?_⟩
  · intro msg
    unfold mainIngest
    by_cases h : strFalsy msg.localMessageId = true
    · rw [if_pos h]
      exact hgen
    · rw [if_neg h]
      exact Bool.not_eq_true _ ▸ h
  · intro ct cid msgs msg m' hm'
    unfold addMessage at hm'
    split at hm'
    · split at hm'
      · dsimp only at hm'
        split at hm'
        · exact Or.inl hm'
        · rcases List.mem_append.mp hm' with h | h
          · exact Or.inl h
          · rcases List.mem_singleton.mp h with rfl
            exact Or.inr hgen
      · dsimp only at hm'
        split at hm'
        · exact Or.inl hm'
        · rcases List.mem_append.mp hm' with h | h
          · exact Or.inl h
          · rcases List.mem_singleton.mp h with rfl
            rename_i hfal _
            exact Or.inr (Bool.not_eq_true _ ▸ hfal)
    · exact Or.inl hm'
  · exact fun uuid now selfId ct cid text => ⟨rfl, rfl⟩
  · intro ct cid selfId msgs rows m' hm'
    unfold loadChatMessages at hm'
    split at hm'
    · exact Or.inl hm'
    · exact Or.inr (List.mem_filter.mp hm').1

/-- Witness for C9: the freshly generated id "u1" is non-falsy, so the push
ingestion of the id-less storage row yields a record with a truthy id. -/
theorem ingestion_localId_assignment_witness :
    (("u1" : String) ≠ "") ∧
      strFalsy ((mainIngest "u1" exRowNoId).localMessageId) = false :=
  ⟨by decide, (ingestion_localId_assignment "u1" (by decide)).1 exRowNoId⟩

theorem showMessageContextMenu_eq (now : Int) (st : CtxMenuState) (m : OneBotMessage) :
    showMessageContextMenu now st m =
      if canRecall now m = true then { showContextMenu := true, contextMenuMessage := some m }
      else st := by
  unfold showMessageContextMenu canRecall
  by_cases h1 : m.post_type = "message_sent"
  · by_cases h2 : m.recalled = true
    · simp [h1, h2]
    · by_cases h3 : now - m.time > 120
      · have h3le : ¬(now - m.time ≤ 120) := not_le.mpr h3
        simp [h1, h2, h3, h3le]
      · have h3le : now - m.time ≤ 120 := not_lt.mp h3
        simp [h1, h2, h3, h3le]
  · simp [h1]

/-- C10: a recall is offered only for a sent, not yet recalled record at
most 120 seconds old, and for any other record the context-menu handler
returns with the state unchanged; a recall request is issued only for such
a record, carrying its non-falsy gateway id. -/
theorem recall_offer_guard (now : Int) (st : CtxMenuState) (m : OneBotMessage) :
    (canRecall now m = false → showMessageContextMenu now st m = st) ∧
      (canRecall now m = true →
        showMessageContextMenu now st m =
          { showContextMenu := true, contextMenuMessage := some m }) ∧
      (∀ mid : Int,
        recallMessage (showMessageContextMenu now ⟨false, none⟩ m) = some mid →
        canRecall now m = true ∧ m.message_id = some mid ∧ mid ≠ 0) := by
  refine ⟨?_, ?_, ?_⟩
  · intro h
    rw [showMessageContextMenu_eq, if_neg]
    simp [h]
  · intro h
    rw [showMessageContextMenu_eq, if_pos h]
  · intro mid h
    rw [showMessageContextMenu_eq] at h
    by_cases hc : canRecall now m = true
    · rw [if_pos hc] at h
      unfold recallMessage at h
      dsimp only at h
      by_cases hfal : intFalsy m.message_id = true
      · rw [if_pos hfal] at h
        simp at h
      · rw [if_neg hfal] at h
        refine ⟨hc, h, ?_⟩
        intro heq
        subst heq
        rw [h] at hfal
        exact hfal (by decide)
    · rw [if_neg hc] at h
      simp [recallMessage] at h

/-- Witness for C10: the acknowledged record sent 10 seconds ago may be
recalled, and the issued recall carries its gateway id 7. -/
theorem recall_offer_guard_witness :
    (canRecall 1010 exSentAcked = true ∧
        showMessageContextMenu 1010 ⟨false, none⟩ exSentAcked =
          { showContextMenu := true, contextMenuMessage := some exSentAcked }) ∧
      (canRecall 1010 exSentAcked = true ∧ exSentAcked.message_id = some 7 ∧ (7 : Int) ≠ 0) :=
  ⟨⟨by decide, (recall_offer_guard 1010 ⟨false, none⟩ exSentAcked).2.1 (by decide)⟩,
    (recall_offer_guard 1010 ⟨false, none⟩ exSentAcked).2.2 7 (by decide)⟩

/-- C1 (code evaluation at the failing input): on the visible records of
exList1 the first cluster opens the very first bucket yet is emitted with
showTime = false, and the second cluster shares bucket anchor 0 with the
first (it was started by a sender change inside that bucket) yet is emitted
with showTime = true: the walk assigns showTime when a cluster is flushed,
from the reason the next cluster starts. -/
theorem grouper_showTime_eval :
    (groupedMessages exList1).map (fun g => (g.time, g.showTime)) =
      [(0, false), (0, true), (1000, true)] := by
  decide

theorem groupRun_append (l1 l2 : List OneBotMessage) : ∀ st : GroupState,
    groupRun st (l1 ++ l2) = groupRun (groupRun st l1) l2 := by
  induction l1 with
  | nil => intro st; rfl
  | cons m rest ih =>
      intro st
      show groupRun (groupStep st m) (rest ++ l2) = _
      rw [ih]
      rfl

theorem stateAfter_succ (l : List OneBotMessage) (n : Nat) (h : n < l.length) :
    stateAfter l (n + 1) = groupStep (stateAfter l n) (l.getD n default) := by
  unfold stateAfter
  rw [List.take_succ, List.getElem?_eq_getElem h, Option.toList_some, groupRun_append,
    List.getD_eq_getElem l default h]
  rfl

theorem groupStep_cur_isSome (st : GroupState) (m : OneBotMessage) :
    ∃ (a : Int) (cg : OpenGroup), (groupStep st m).cur = some (a, cg) := by
  obtain ⟨gs, cur⟩ := st
  cases cur with
  | none => exact ⟨m.time, _, rfl⟩
  | some ac =>
      obtain ⟨anchor, cg⟩ := ac
      unfold groupStep
      by_cases h1 : needNewTimeGroup ⟨gs, some (anchor, cg)⟩ m = true
      · rw [if_pos h1]
        exact ⟨m.time, _, rfl⟩
      · rw [if_neg h1]
        by_cases h2 : needNewSenderGroup ⟨gs, some (anchor, cg)⟩ m = true
        · rw [if_pos h2]
          exact ⟨anchor, _, rfl⟩
        · rw [if_neg h2]
          exact ⟨anchor, _, rfl⟩

theorem groupStep_newBucket_cur (st : GroupState) (m : OneBotMessage)
    (h : needNewTimeGroup st m = true) :
    (groupStep st m).cur = some (m.time, ⟨getSenderId m, groupUserId m, [m]⟩) := by
  obtain ⟨gs, cur⟩ := st
  unfold groupStep
  rw [if_pos h]
  cases cur with
  | none => rfl
  | some ac => obtain ⟨anchor, cg⟩ := ac; rfl

theorem needNewTimeGroup_false_cur (st : GroupState) (m : OneBotMessage)
    (h : needNewTimeGroup st m = false) :
    ∃ (a : Int) (cg : OpenGroup), st.cur = some (a, cg) := by
  obtain ⟨gs, cur⟩ := st
  cases cur with
  | none => simp [needNewTimeGroup] at h
  | some ac => obtain ⟨anchor, cg⟩ := ac; exact ⟨anchor, cg, rfl⟩

theorem groupStep_sameBucket_cur (st : GroupState) (m : OneBotMessage) (a0 : Int)
    (cg0 : OpenGroup) (h : needNewTimeGroup st m = false) (hcur : st.cur = some (a0, cg0)) :
    ∃ cg1 : OpenGroup, (groupStep st m).cur = some (a0, cg1) := by
  obtain ⟨gs, cur⟩ := st
  cases hcur
  unfold groupStep
  rw [if_neg (by rw [h]; exact Bool.false_ne_true)]
  by_cases h2 : needNewSenderGroup ⟨gs, some (a0, cg0)⟩ m = true
  · rw [if_pos h2]
    exact ⟨_, rfl⟩
  · rw [if_neg h2]
    exact ⟨_, rfl⟩

theorem stateAfter_cur_isSome (l : List OneBotMessage) (n : Nat) (h : n < l.length) :
    ∃ (a : Int) (cg : OpenGroup), (stateAfter l (n + 1)).cur = some (a, cg) := by
  rw [stateAfter_succ l n h]
  exact groupStep_cur_isSome _ _

theorem stateAfter_anchor_le (l : List OneBotMessage)
    (hsort : List.Chain' (fun a b => a.time ≤ b.time) l) :
    ∀ i : Nat, i < l.length → ∀ (a : Int) (cg : OpenGroup),
      (stateAfter l (i + 1)).cur = some (a, cg) → a ≤ (l.getD i default).time := by
  intro i
  induction i with
  | zero =>
      intro h a cg hcur
      rw [stateAfter_succ l 0 h] at hcur
      have h0 : needNewTimeGroup (stateAfter l 0) (l.getD 0 default) = true := rfl
      rw [groupStep_newBucket_cur _ _ h0] at hcur
      obtain ⟨ha, _⟩ := Prod.mk.injEq .. ▸ (Option.some.injEq .. ▸ hcur)
      omega
  | succ j ih =>
      intro h a cg hcur
      have hj : j < l.length := by omega
      rw [stateAfter_succ l (j + 1) h] at hcur
      by_cases hnb : needNewTimeGroup (stateAfter l (j + 1)) (l.getD (j + 1) default) = true
      · rw [groupStep_newBucket_cur _ _ hnb] at hcur
        obtain ⟨ha, _⟩ := Prod.mk.injEq .. ▸ (Option.some.injEq .. ▸ hcur)
        omega
      · rw [Bool.not_eq_true] at hnb
        obtain ⟨a0, cg0, hcur0⟩ := needNewTimeGroup_false_cur _ _ hnb
        obtain ⟨cg1, hcur1⟩ := groupStep_sameBucket_cur _ _ a0 cg0 hnb hcur0
        rw [hcur1] at hcur
        obtain ⟨ha, _⟩ := Prod.mk.injEq .. ▸ (Option.some.injEq .. ▸ hcur)
        have hle0 : a0 ≤ (l.getD j default).time := ih hj a0 cg0 hcur0
        have hstep : (l.getD j default).time ≤ (l.getD (j + 1) default).time := by
          have hc := List.chain'_iff_get.mp hsort j (by omega)
          rw [List.get_eq_getElem, List.get_eq_getElem] at hc
          rw [List.getD_eq_getElem l default hj, List.getD_eq_getElem l default h]
          exact hc
        omega

/-- C3 amended: on timestamp-sorted input, two consecutive records more than
300 seconds apart always start a new time bucket (and the cluster flushed at
such a change is the one emitted with showTime = true); but the bucket test
compares against the bucket anchor, not the previous record, so the claim
about records at most 300 seconds apart holds when the earlier record
itself opened the current bucket: then a same-sender successor within 300
seconds starts neither a bucket nor a cluster (the cap cannot be reached,
the open cluster holds one record). -/
theorem bucket_threshold (l : List OneBotMessage) (i : Nat) :
    (List.Chain' (fun a b => a.time ≤ b.time) l → i + 1 < l.length →
      (l.getD (i + 1) default).time - (l.getD i default).time > 300 →
      bucketStartAt l (i + 1) = true) ∧
      (i + 1 < l.length → bucketStartAt l i = true →
        getSenderId (l.getD i default) = getSenderId (l.getD (i + 1) default) →
        ((l.getD (i + 1) default).time - (l.getD i default).time).natAbs ≤ 300 →
        bucketStartAt l (i + 1) = false ∧ clusterStartAt l (i + 1) = false) ∧
      (∀ (st : GroupState) (m : OneBotMessage) (anchor : Int) (cg : OpenGroup),
        st.cur = some (anchor, cg) → needNewTimeGroup st m = true →
        (groupStep st m).groups =
          st.groups ++ [⟨anchor, cg.senderId, cg.userId, cg.messages, true, true⟩]) := by
  refine ⟨?_, ?_, ?_⟩
  · intro hsort hlen hgap
    have hi : i < l.length := by omega
    have e0 : l.getD i default = l[i] := List.getD_eq_getElem l default hi
    have e1 : l.getD (i + 1) default = l[i + 1] := List.getD_eq_getElem l default hlen
    obtain ⟨a, cg, hcur⟩ := stateAfter_cur_isSome l i hi
    have ha := stateAfter_anchor_le l hsort i hi a cg hcur
    rw [e0] at ha
    rw [e0, e1] at hgap
    unfold bucketStartAt needNewTimeGroup
    rw [hcur, e1]
    simp only [isSameTimeGroup, TIME_GROUP_THRESHOLD, Bool.not_eq_true',
      decide_eq_false_iff_not, not_le]
    omega
  · intro hlen hstart hsender hgap
    have hi : i < l.length := by omega
    have e0 : l.getD i default = l[i] := List.getD_eq_getElem l default hi
    have e1 : l.getD (i + 1) default = l[i + 1] := List.getD_eq_getElem l default hlen
    rw [e0, e1] at hsender hgap
    have hcur : (stateAfter l (i + 1)).cur =
        some ((l[i]).time,
          ⟨getSenderId (l[i]), groupUserId (l[i]), [l[i]]⟩) := by
      have hstart' : needNewTimeGroup (stateAfter l i) (l[i]) = true := by
        rw [← e0]
        exact hstart
      rw [stateAfter_succ l i hi, e0]
      exact groupStep_newBucket_cur _ _ hstart'
    constructor
    · unfold bucketStartAt needNewTimeGroup
      rw [hcur, e1]
      simp only [Bool.not_eq_false', isSameTimeGroup, TIME_GROUP_THRESHOLD,
        decide_eq_true_eq]
      omega
    · unfold clusterStartAt needNewSenderGroup needNewTimeGroup
      rw [hcur, e1]
      simp [isSameTimeGroup, TIME_GROUP_THRESHOLD, hsender]
      omega
  · intro st m anchor cg hcur hneed
    obtain ⟨gs, cur⟩ := st
    cases hcur
    unfold groupStep
    rw [if_pos hneed]

/-- C3 counterexample: in exList3 the records at positions 1 and 2 are the
same sender, 299 seconds apart, and the open cluster holds only two of its
ten allowed records, yet the third record opens a new time bucket, because
its distance to the bucket anchor 0 exceeds 300 seconds. -/
theorem bucket_threshold_counterexample :
    (exList3.getD 2 default).time - (exList3.getD 1 default).time = 299 ∧
      getSenderId (exList3.getD 1 default) = getSenderId (exList3.getD 2 default) ∧
      (stateAfter exList3 2).cur =
        some (0, ⟨"user_1", some 1, [exMsg 1 0, exMsg 1 250]⟩) ∧
      bucketStartAt exList3 2 = true := by
  decide

theorem exList1_sorted : List.Chain' (fun a b => a.time ≤ b.time) exList1 := by
  refine List.chain'_cons.mpr ⟨by decide, ?_⟩
  refine List.chain'_cons.mpr ⟨by decide, ?_⟩
  simp

/-- Witness for C3: the 900-second jump in exList1 opens a bucket; a
250-second same-sender successor of a bucket-opening record does not; and a
bucket change flushes the open cluster with showTime = true. -/
theorem bucket_threshold_witness :
    (List.Chain' (fun a b => a.time ≤ b.time) exList1 ∧ bucketStartAt exList1 2 = true) ∧
      (bucketStartAt [exMsg 1 0, exMsg 1 250] 1 = false ∧
        clusterStartAt [exMsg 1 0, exMsg 1 250] 1 = false) ∧
      (groupStep ⟨[], some (0, ⟨"self", none, [exSent]⟩)⟩ (exMsg 1 1000)).groups =
        [] ++ [⟨0, "self", none, [exSent], true, true⟩] :=
  ⟨⟨exList1_sorted, (bucket_threshold exList1 1).1 exList1_sorted (by decide) (by decide)⟩,
    (bucket_threshold [exMsg 1 0, exMsg 1 250] 0).2.1 (by decide) (by decide) (by decide)
      (by decide),
    (bucket_threshold exList1 0).2.2 ⟨[], some (0, ⟨"self", none, [exSent]⟩)⟩
      (exMsg 1 1000) 0 ⟨"self", none, [exSent]⟩ rfl (by decide)⟩
